import Mathlib

/-!
Shallow embedding of the probability engine of the kalshi-weather-bot
repository (`src/kalshi_weather/engine/probability.py`,
`src/kalshi_weather/engine/edge_detector.py`, data model from
`src/src/interfaces.py` / `kalshi_weather.core.models`).

Modelling conventions:
* Python floats are modelled as exact rationals (`ℚ`); the special
  IEEE values that the code explicitly tests for are modelled by the
  inductive `PyFloat` (`nan`, `inf`, `ninf`, or a finite rational).
* Calls into Python's `math` module that compute transcendental
  functions (`math.erf`, `math.sqrt`) are modelled by an abstract
  `FloatLib` parameter: the theorems hold for every implementation of
  those functions, exactly as the code's control flow does not depend
  on their values.
* Wall-clock fields (`combined_at`, `adjusted_at`, `fetched_at`,
  `model_run_time`, `last_updated`, reading timestamps) and the
  timezone plumbing of `_calculate_hours_since_noon` are not part of
  any verified property; the adjuster is parameterised directly by the
  `hours_since_noon` value that the timezone code would produce, and
  the timestamp metadata fields are omitted from the records.
* The free-text `reasoning` field of `TradingSignal` (an f-string) is
  omitted; no property concerns it.
-/

namespace KalshiWeather

/-- A Python float as the engine sees it: NaN, the two infinities, or a
finite value (modelled exactly as a rational). -/
inductive PyFloat where
  | nan : PyFloat
  | inf : PyFloat
  | ninf : PyFloat
  | fin : ℚ → PyFloat
deriving DecidableEq, Repr

/-- `math.isnan`. -/
def PyFloat.isnan : PyFloat → Bool
  | .nan => true
  | _ => false

/-- Numeric value of a `PyFloat`; non-finite values are mapped to junk
(0).  The engine only reaches this projection on values that survived
the NaN filter, and no verified property depends on the junk values. -/
def PyFloat.toQ : PyFloat → ℚ
  | .fin q => q
  | _ => 0

/-- Abstract model of the Python `math` module functions the engine
calls: `math.erf` and `math.sqrt`.  All control flow in the source is
independent of their exact values. -/
structure FloatLib where
  erf : ℚ → ℚ
  sqrt : ℚ → ℚ

/-- A trivial `FloatLib` instance used to instantiate witnesses. -/
def lib0 : FloatLib := ⟨fun _ => 0, fun _ => 0⟩

/-- `BracketType` enum.  The source enum has exactly the first three
members; `non_member` models any other value reaching the dynamically
typed `bracket_type` field (Python performs no type enforcement), which
is what drives the `else` fallback branch of
`calculate_bracket_probability`. -/
inductive BracketType where
  | between : BracketType
  | greater_than : BracketType
  | less_than : BracketType
  | non_member : BracketType
deriving DecidableEq, Repr

/-- `StationType` enum. -/
inductive StationType where
  | hourly : StationType
  | five_minute : StationType
  | unknown : StationType
deriving DecidableEq, Repr

/-- `TemperatureForecast` dataclass.  `forecast_temp_f` is typed
`float` in the source but `combine` defensively checks it for `None`,
so it is modelled as `Option PyFloat`. -/
structure TemperatureForecast where
  source : String
  target_date : String
  forecast_temp_f : Option PyFloat
  low_f : ℚ
  high_f : ℚ
  std_dev : ℚ
  ensemble_members : List ℚ := []
deriving DecidableEq, Repr

/-- `StationReading` dataclass (timestamp omitted). -/
structure StationReading where
  station_id : String
  station_type : StationType
  reported_temp_f : ℚ
  reported_temp_c : Option ℚ
  possible_actual_f_low : ℚ
  possible_actual_f_high : ℚ
deriving DecidableEq, Repr

/-- `DailyObservation` dataclass (`last_updated` omitted). -/
structure DailyObservation where
  station_id : String
  date : String
  observed_high_f : ℚ
  possible_actual_high_low : ℚ
  possible_actual_high_high : ℚ
  readings : List StationReading := []
deriving DecidableEq, Repr

/-- `MarketBracket` dataclass.  The source types the bounds
`Optional[float]`; the bound relevant to each bracket type is always
present on canonical brackets (malformed brackets are filtered before
reaching the engine), so the bounds are modelled as total fields. -/
structure MarketBracket where
  ticker : String
  event_ticker : String
  subtitle : String
  bracket_type : BracketType
  lower_bound : ℚ
  upper_bound : ℚ
  yes_bid : ℤ
  yes_ask : ℤ
  last_price : ℤ
  volume : ℤ
  implied_prob : ℚ
deriving DecidableEq, Repr

/-- `TradingSignal` dataclass (free-text `reasoning` omitted). -/
structure TradingSignal where
  bracket : MarketBracket
  direction : String
  model_prob : ℚ
  market_prob : ℚ
  edge : ℚ
  confidence : ℚ
deriving DecidableEq, Repr

/-! ## Module 2A: Forecast Combiner (`probability.py`) -/

/-- `DEFAULT_WEIGHTS` (a Python dict, modelled as an association list
in insertion order). -/
def DEFAULT_WEIGHTS : List (String × ℚ) :=
  [("NWS", 5),
   ("ECMWF", 4),
   ("Open-Meteo Best Match", 7/2),
   ("GFS+HRRR", 3),
   ("GFS", 5/2),
   ("HRRR", 5/2),
   ("Open-Meteo Ensemble", 2),
   ("default", 1)]

/-- `MIN_STD_DEV`. -/
def MIN_STD_DEV : ℚ := 3/2

/-- `MAX_STD_DEV`. -/
def MAX_STD_DEV : ℚ := 10

/-- `CombinedForecast` dataclass (`combined_at` omitted). -/
structure CombinedForecast where
  target_date : String
  mean_temp_f : ℚ
  std_dev : ℚ
  low_f : ℚ
  high_f : ℚ
  source_count : ℕ
  sources_used : List String
  weights_used : List (String × ℚ)
  individual_forecasts : List TemperatureForecast := []
deriving DecidableEq, Repr

/-- `ForecastCombiner.__init__` state: the weight table and the two
std-dev clamps. -/
structure ForecastCombiner where
  weights : List (String × ℚ) := DEFAULT_WEIGHTS
  min_std_dev : ℚ := MIN_STD_DEV
  max_std_dev : ℚ := MAX_STD_DEV
deriving DecidableEq, Repr

/-- Substring occurrence on character lists (helper for `substrOf`). -/
def substrAux (needle : List Char) : List Char → Bool
  | [] => needle.isEmpty
  | c :: rest => needle.isPrefixOf (c :: rest) || substrAux needle rest

/-- Python's `key in source` substring test. -/
def substrOf (needle haystack : String) : Bool :=
  substrAux needle.data haystack.data

/-- Dict membership + indexing `self.weights[source]` (first matching
key of the association list). -/
def lookupWeight (w : List (String × ℚ)) (k : String) : Option ℚ :=
  (w.find? (fun p => p.1 == k)).map (·.2)

/-- `ForecastCombiner.get_weight`: exact match, then case-insensitive
partial (substring) match over the dict in iteration order, then the
`"default"` entry, then 1.0. -/
def ForecastCombiner.get_weight (c : ForecastCombiner) (source : String) : ℚ :=
  match lookupWeight c.weights source with
  | some v => v
  | none =>
    let source_lower := source.toLower
    match c.weights.find? (fun p =>
        substrOf p.1.toLower source_lower || substrOf source_lower p.1.toLower) with
    | some p => p.2
    | none => (lookupWeight c.weights "default").getD 1

/-- The filter predicate of `ForecastCombiner.combine`:
`f.forecast_temp_f is not None and not math.isnan(f.forecast_temp_f)`. -/
def validTemp (f : TemperatureForecast) : Bool :=
  match f.forecast_temp_f with
  | none => false
  | some v => !v.isnan

/-- Numeric value of a (valid) forecast temperature. -/
def tempQ (f : TemperatureForecast) : ℚ :=
  (f.forecast_temp_f.getD .nan).toQ

/-- The `z_10 = 1.28155` constant. -/
def Z_10 : ℚ := 128155/100000

/-- `ForecastCombiner.combine`. -/
def ForecastCombiner.combine (lib : FloatLib) (c : ForecastCombiner)
    (forecasts : List TemperatureForecast) : Option CombinedForecast :=
  if forecasts.isEmpty then none
  else
    let valid_forecasts := forecasts.filter validTemp
    match valid_forecasts with
    | [] => none
    | f0 :: _ =>
      let weights := valid_forecasts.map (fun f => c.get_weight f.source)
      let total_weight := weights.sum
      let normalized_weights := weights.map (· / total_weight)
      let pairs := normalized_weights.zip valid_forecasts
      let weighted_mean := (pairs.map (fun wf => wf.1 * tempQ wf.2)).sum
      let pooled_variance := (pairs.map (fun wf => wf.1 * wf.2.std_dev ^ 2)).sum
      let disagreement_variance :=
        (pairs.map (fun wf => wf.1 * (tempQ wf.2 - weighted_mean) ^ 2)).sum
      let combined_variance := pooled_variance + disagreement_variance
      let combined_std_dev := lib.sqrt combined_variance
      let combined_std_dev := max c.min_std_dev (min c.max_std_dev combined_std_dev)
      let low_f := weighted_mean - Z_10 * combined_std_dev
      let high_f := weighted_mean + Z_10 * combined_std_dev
      let weights_used := valid_forecasts.zip normalized_weights |>.map
        (fun fw => (fw.1.source, fw.2))
      some
        { target_date := f0.target_date
          mean_temp_f := weighted_mean
          std_dev := combined_std_dev
          low_f := low_f
          high_f := high_f
          source_count := valid_forecasts.length
          sources_used := valid_forecasts.map (·.source)
          weights_used := weights_used
          individual_forecasts := valid_forecasts }

/-- `ForecastCombiner.combine_with_custom_weights`.  The Python method
mutates `self.weights` to the custom table, calls `combine`, and
restores the original table in a `finally` block; the embedding returns
the method's result paired with the combiner state after the call. -/
def ForecastCombiner.combine_with_custom_weights (lib : FloatLib)
    (c : ForecastCombiner) (forecasts : List TemperatureForecast)
    (custom_weights : List (String × ℚ)) :
    ForecastCombiner × Option CombinedForecast :=
  let c' := { c with weights := custom_weights }
  let result := c'.combine lib forecasts
  ({ c' with weights := c.weights }, result)

/-- Module-level `combine_forecasts` convenience function with default
settings. -/
def combine_forecasts (lib : FloatLib)
    (forecasts : List TemperatureForecast) : Option CombinedForecast :=
  ForecastCombiner.combine lib {} forecasts

/-! ## Module 2B: Observation Adjuster (`probability.py`) -/

/-- `EARLY_CUTOFF_HOURS`. -/
def EARLY_CUTOFF_HOURS : ℚ := 2

/-- `LATE_CUTOFF_HOURS`. -/
def LATE_CUTOFF_HOURS : ℚ := 4

/-- `MAX_OBSERVATION_WEIGHT`. -/
def MAX_OBSERVATION_WEIGHT : ℚ := 95/100

/-- `MIN_OBSERVATION_STD` (declared in the source; unused by `adjust`). -/
def MIN_OBSERVATION_STD : ℚ := 1/2

/-- `AdjustedForecast` dataclass (`adjusted_at` omitted). -/
structure AdjustedForecast where
  target_date : String
  mean_temp_f : ℚ
  std_dev : ℚ
  low_f : ℚ
  high_f : ℚ
  original_forecast : CombinedForecast
  observation : Option DailyObservation
  observation_weight : ℚ
  forecast_weight : ℚ
  hours_since_noon : ℚ
  observed_high_f : Option ℚ
  min_possible_high : ℚ
  max_possible_high : ℚ
deriving DecidableEq, Repr

/-- `ObservationAdjuster.__init__` state (timezone omitted — see the
module comment). -/
structure ObservationAdjuster where
  min_std_dev : ℚ := MIN_STD_DEV
  max_observation_weight : ℚ := MAX_OBSERVATION_WEIGHT
deriving DecidableEq, Repr

/-- `ObservationAdjuster._calculate_observation_weight`, parameterised
by the adjuster's `max_observation_weight`. -/
def calculate_observation_weight (max_observation_weight : ℚ)
    (hours_since_noon : ℚ) : ℚ :=
  if hours_since_noon ≤ 0 then 0
  else if hours_since_noon < EARLY_CUTOFF_HOURS then
    (15/100) * hours_since_noon
  else if hours_since_noon < LATE_CUTOFF_HOURS then
    let progress := (hours_since_noon - EARLY_CUTOFF_HOURS) /
      (LATE_CUTOFF_HOURS - EARLY_CUTOFF_HOURS)
    3/10 + (5/10) * progress
  else
    let extra_hours := hours_since_noon - LATE_CUTOFF_HOURS
    let progress := min (extra_hours / 4) 1
    let weight := 8/10 + (max_observation_weight - 8/10) * progress
    min weight max_observation_weight

/-- `ObservationAdjuster._calculate_adjusted_mean`. -/
def calculate_adjusted_mean (forecast_mean observed_high observation_weight : ℚ) : ℚ :=
  let forecast_weight := 1 - observation_weight
  let blended_mean := forecast_weight * forecast_mean + observation_weight * observed_high
  max blended_mean observed_high

/-- The agreement factor of `_calculate_adjusted_std_dev`'s
forecast-dominant branch: `max(0.8, 1.0 - temp_diff / 20.0)`. -/
def agreement_factor (temp_diff : ℚ) : ℚ :=
  max (8/10) (1 - temp_diff / 20)

/-- `ObservationAdjuster._calculate_adjusted_std_dev`, parameterised by
the adjuster's `min_std_dev`. -/
def calculate_adjusted_std_dev (min_std_dev : ℚ) (forecast_std : ℚ)
    (observation : DailyObservation) (observation_weight adjusted_mean : ℚ) : ℚ :=
  let station_uncertainty :=
    (observation.possible_actual_high_high - observation.possible_actual_high_low) / 2
  let forecast_weight := 1 - observation_weight
  let blended_std :=
    if observation_weight > 1/2 then
      forecast_weight * forecast_std + observation_weight * station_uncertainty
    else
      let temp_diff := |adjusted_mean - observation.observed_high_f|
      forecast_std * agreement_factor temp_diff
  max min_std_dev blended_std

/-- `ObservationAdjuster.adjust`.  The `current_time` argument and the
timezone conversion in `_calculate_hours_since_noon` are modelled by
passing the resulting `hours_since_noon` value directly. -/
def ObservationAdjuster.adjust (a : ObservationAdjuster)
    (combined_forecast : CombinedForecast)
    (observation : Option DailyObservation)
    (hours_since_noon : ℚ) : AdjustedForecast :=
  -- `if observation is None or not observation.readings:` branch
  let passthrough : AdjustedForecast :=
    { target_date := combined_forecast.target_date
      mean_temp_f := combined_forecast.mean_temp_f
      std_dev := combined_forecast.std_dev
      low_f := combined_forecast.low_f
      high_f := combined_forecast.high_f
      original_forecast := combined_forecast
      observation := none
      observation_weight := 0
      forecast_weight := 1
      hours_since_noon := hours_since_noon
      observed_high_f := none
      min_possible_high := combined_forecast.low_f
      max_possible_high := combined_forecast.high_f }
  match observation with
  | none => passthrough
  | some obs =>
    if obs.readings.isEmpty then passthrough
    else
      let observation_weight :=
        calculate_observation_weight a.max_observation_weight hours_since_noon
      let forecast_weight := 1 - observation_weight
      let adjusted_mean := calculate_adjusted_mean
        combined_forecast.mean_temp_f obs.observed_high_f observation_weight
      let adjusted_std := calculate_adjusted_std_dev a.min_std_dev
        combined_forecast.std_dev obs observation_weight adjusted_mean
      let low_f := adjusted_mean - Z_10 * adjusted_std
      let high_f := adjusted_mean + Z_10 * adjusted_std
      let min_possible := obs.possible_actual_high_low
      let low_f := max low_f min_possible
      let max_possible :=
        if observation_weight > 7/10 then
          obs.possible_actual_high_high + adjusted_std
        else
          max high_f obs.possible_actual_high_high
      { target_date := combined_forecast.target_date
        mean_temp_f := adjusted_mean
        std_dev := adjusted_std
        low_f := low_f
        high_f := high_f
        original_forecast := combined_forecast
        observation := some obs
        observation_weight := observation_weight
        forecast_weight := forecast_weight
        hours_since_noon := hours_since_noon
        observed_high_f := some obs.observed_high_f
        min_possible_high := min_possible
        max_possible_high := max_possible }

/-- Module-level `adjust_forecast_with_observations` convenience
function (default adjuster settings). -/
def adjust_forecast_with_observations (combined_forecast : CombinedForecast)
    (observation : Option DailyObservation) (hours_since_noon : ℚ) : AdjustedForecast :=
  ObservationAdjuster.adjust {} combined_forecast observation hours_since_noon

/-! ## Module 2C: Bracket Probability Calculator (`probability.py`) -/

/-- `BracketProbability` dataclass. -/
structure BracketProbability where
  bracket : MarketBracket
  model_prob : ℚ
  market_prob : ℚ
  edge : ℚ
  edge_pct : ℚ
deriving DecidableEq, Repr

/-- `normal_cdf`.  `math.erf` and `math.sqrt(2.0)` are supplied by the
abstract `FloatLib`. -/
def normal_cdf (lib : FloatLib) (x mean std_dev : ℚ) : ℚ :=
  if std_dev ≤ 0 then
    -- Degenerate case: all probability mass at the mean
    if x ≥ mean then 1 else 0
  else
    let z := (x - mean) / std_dev
    (1/2) * (1 + lib.erf (z / lib.sqrt 2))

/-- `BracketProbabilityCalculator.__init__` state. -/
structure BracketProbabilityCalculator where
  min_prob : ℚ := 1/1000
  max_prob : ℚ := 999/1000
deriving DecidableEq, Repr

/-- `BracketProbabilityCalculator._clamp_probability`. -/
def BracketProbabilityCalculator.clamp_probability
    (c : BracketProbabilityCalculator) (prob : ℚ) : ℚ :=
  max c.min_prob (min c.max_prob prob)

/-- `BracketProbabilityCalculator.calculate_bracket_probability`. -/
def BracketProbabilityCalculator.calculate_bracket_probability
    (c : BracketProbabilityCalculator) (lib : FloatLib)
    (bracket : MarketBracket) (mean std_dev : ℚ) : ℚ :=
  let prob :=
    match bracket.bracket_type with
    | .between =>
      let lower := bracket.lower_bound
      let upper := bracket.upper_bound
      normal_cdf lib (upper + 1/2) mean std_dev -
        normal_cdf lib (lower - 1/2) mean std_dev
    | .greater_than =>
      let threshold := bracket.lower_bound
      1 - normal_cdf lib (threshold + 1/2) mean std_dev
    | .less_than =>
      let threshold := bracket.upper_bound
      normal_cdf lib (threshold - 1/2) mean std_dev
    | .non_member =>
      -- `else: logger.warning(...); prob = 0.0`
      0
  c.clamp_probability prob

/-- `BracketProbabilityCalculator.calculate_all_probabilities` (the
Python loop-and-append is an order-preserving map). -/
def BracketProbabilityCalculator.calculate_all_probabilities
    (c : BracketProbabilityCalculator) (lib : FloatLib)
    (brackets : List MarketBracket) (mean std_dev : ℚ) : List BracketProbability :=
  brackets.map (fun bracket =>
    let model_prob := c.calculate_bracket_probability lib bracket mean std_dev
    let market_prob := bracket.implied_prob
    let edge := model_prob - market_prob
    { bracket := bracket
      model_prob := model_prob
      market_prob := market_prob
      edge := edge
      edge_pct := edge * 100 })

/-- `BracketProbabilityCalculator.calculate_from_adjusted_forecast`. -/
def BracketProbabilityCalculator.calculate_from_adjusted_forecast
    (c : BracketProbabilityCalculator) (lib : FloatLib)
    (adjusted_forecast : AdjustedForecast)
    (brackets : List MarketBracket) : List BracketProbability :=
  c.calculate_all_probabilities lib brackets
    adjusted_forecast.mean_temp_f adjusted_forecast.std_dev

/-! ## Module 3: Edge Detector (`edge_detector.py`, `settings.py`) -/

/-- `MIN_EDGE_THRESHOLD` default from `config/settings.py`. -/
def MIN_EDGE_THRESHOLD : ℚ := 8/100

/-- `KALSHI_FEE_RATE` from `config/settings.py`. -/
def KALSHI_FEE_RATE : ℚ := 1/10

/-- The long ("buy YES") edge computed inside `EdgeDetector.analyze`:
`edge_long = model_prob - entry_cost / (1 - fee_rate)`. -/
def edge_long (fee_rate model_prob entry_cost : ℚ) : ℚ :=
  model_prob - entry_cost / (1 - fee_rate)

/-- The short ("buy NO") edge computed inside `EdgeDetector.analyze`:
`edge_short = (1 - model_prob) - entry_price_no / (1 - fee_rate)`. -/
def edge_short (fee_rate model_prob entry_price_no : ℚ) : ℚ :=
  (1 - model_prob) - entry_price_no / (1 - fee_rate)

/-- `EdgeDetector._calculate_confidence`. -/
def calculate_confidence (edge std_dev : ℚ) : ℚ :=
  let edge_score := min 1 (max 0 ((edge - 5/100) / (15/100) * (1/2) + 1/2))
  let unc_score := max 0 (min 1 (1 - (std_dev - 3/2) / (7/2) * (1/2)))
  (edge_score + unc_score) / 2

/-- The per-bracket body of `EdgeDetector.analyze`'s signal loop: the
YES append (guarded by `0 < entry_cost < 1` and `edge_long > min_edge`)
followed by the NO append (guarded by `0 < entry_price_no < 1` and
`edge_short > min_edge`). -/
def signals_for (fee_rate min_edge : ℚ) (adjusted : AdjustedForecast)
    (bp : BracketProbability) : List TradingSignal :=
  let entry_cost := (bp.bracket.yes_ask : ℚ) / 100
  let longs :=
    if 0 < entry_cost ∧ entry_cost < 1 then
      let e := edge_long fee_rate bp.model_prob entry_cost
      if e > min_edge then
        [{ bracket := bp.bracket
           direction := "YES"
           model_prob := bp.model_prob
           market_prob := bp.market_prob
           edge := e
           confidence := calculate_confidence e adjusted.std_dev }]
      else []
    else []
  let entry_price_no := 1 - (bp.bracket.yes_bid : ℚ) / 100
  let shorts :=
    if 0 < entry_price_no ∧ entry_price_no < 1 then
      let e := edge_short fee_rate bp.model_prob entry_price_no
      if e > min_edge then
        [{ bracket := bp.bracket
           direction := "NO"
           model_prob := bp.model_prob
           market_prob := bp.market_prob
           edge := e
           confidence := calculate_confidence e adjusted.std_dev }]
      else []
    else []
  longs ++ shorts

/-- One step of the stable descending-by-edge insertion modelling
`signals.sort(key=lambda s: s.edge, reverse=True)` (a stable sort):
`s` is placed after every already-placed signal of edge ≥ its own. -/
def insertByEdge (s : TradingSignal) : List TradingSignal → List TradingSignal
  | [] => [s]
  | t :: ts => if t.edge < s.edge then s :: t :: ts else t :: insertByEdge s ts

/-- Stable sort by descending edge. -/
def sortByEdge (l : List TradingSignal) : List TradingSignal :=
  l.foldl (fun acc s => insertByEdge s acc) []

/-- `EdgeDetector.analyze` (fee rate from `__init__`, default
`KALSHI_FEE_RATE`; the wall-clock "now" consumed by the observation
adjustment is modelled by the `now_hours_since_noon` parameter). -/
def analyze (lib : FloatLib) (fee_rate : ℚ)
    (forecasts : List TemperatureForecast)
    (observation : Option DailyObservation)
    (brackets : List MarketBracket)
    (now_hours_since_noon : ℚ)
    (min_edge : ℚ := MIN_EDGE_THRESHOLD) : List TradingSignal :=
  if forecasts.isEmpty then []
  else if brackets.isEmpty then []
  else
    match combine_forecasts lib forecasts with
    | none => []
    | some combined =>
      let adjusted :=
        adjust_forecast_with_observations combined observation now_hours_since_noon
      let model_probs :=
        BracketProbabilityCalculator.calculate_from_adjusted_forecast {} lib
          adjusted brackets
      let signals := (model_probs.map (signals_for fee_rate min_edge adjusted)).flatten
      sortByEdge signals

/-! ## Spec-side definitions (for refinement claims) -/

/-- Modelled from the spec: `clamp(p, min_prob, max_prob)` — the value
`p` clamped into the interval `[min_prob, max_prob]`. -/
def clampSpec (p min_prob max_prob : ℚ) : ℚ :=
  max min_prob (min max_prob p)

/-! ## Concrete fixtures used by witnesses and counterexamples -/

/-- A valid sample forecast. -/
def sampleFc : TemperatureForecast :=
  { source := "NWS"
    target_date := "2026-01-12"
    forecast_temp_f := some (.fin 55)
    low_f := 261/5
    high_f := 289/5
    std_dev := 2 }

/-- A forecast whose mean is NaN (filtered out by `combine`). -/
def fcNan : TemperatureForecast :=
  { source := "NWS"
    target_date := "2026-01-12"
    forecast_temp_f := some .nan
    low_f := 50
    high_f := 60
    std_dev := 2 }

/-- A forecast whose mean is +inf: non-finite, yet it survives the
`combine` filter because `math.isnan(inf)` is false. -/
def fcInf : TemperatureForecast :=
  { source := "NWS"
    target_date := "2026-01-12"
    forecast_temp_f := some .inf
    low_f := 50
    high_f := 60
    std_dev := 2 }

/-- A sample station reading. -/
def sampleReading : StationReading :=
  { station_id := "KNYC"
    station_type := .hourly
    reported_temp_f := 54
    reported_temp_c := none
    possible_actual_f_low := 53
    possible_actual_f_high := 55 }

/-- A sample observation with one reading. -/
def sampleObs : DailyObservation :=
  { station_id := "KNYC"
    date := "2026-01-12"
    observed_high_f := 54
    possible_actual_high_low := 53
    possible_actual_high_high := 55
    readings := [sampleReading] }

/-- A sample combined forecast record. -/
def sampleCombined : CombinedForecast :=
  { target_date := "2026-01-12"
    mean_temp_f := 55
    std_dev := 2
    low_f := 261/5
    high_f := 289/5
    source_count := 1
    sources_used := ["NWS"]
    weights_used := [("NWS", 1)] }

/-- A sample BETWEEN bracket (54° to 56°). -/
def bBetween : MarketBracket :=
  { ticker := "KXHIGHNY-26JAN12-B55"
    event_ticker := "KXHIGHNY-26JAN12"
    subtitle := "54 to 56"
    bracket_type := .between
    lower_bound := 54
    upper_bound := 56
    yes_bid := 10
    yes_ask := 20
    last_price := 15
    volume := 100
    implied_prob := 3/20 }

/-- A bracket carrying a `bracket_type` value outside the enum. -/
def bUnknown : MarketBracket :=
  { ticker := "KXHIGHNY-26JAN12-X"
    event_ticker := "KXHIGHNY-26JAN12"
    subtitle := "mystery"
    bracket_type := .non_member
    lower_bound := 54
    upper_bound := 56
    yes_bid := 10
    yes_ask := 20
    last_price := 15
    volume := 100
    implied_prob := 3/20 }

/-! ## Claim C1 -/

/-- C1: for every `MarketBracket` and every `(mean, std_dev)` pair,
`calculate_bracket_probability` returns `clamp(p, min_prob, max_prob)`
(defaults 0.001/0.999) with `p = CDF(upper_bound + 0.5) −
CDF(lower_bound − 0.5)` for BETWEEN, `p = 1 − CDF(lower_bound + 0.5)`
for GREATER_THAN, and `p = CDF(upper_bound − 0.5)` for LESS_THAN,
where the CDF degenerates to a step function (1 if `x ≥ mean`, else 0)
when `std_dev ≤ 0`. -/
theorem claim_C1_bracket_probability_formula
    (lib : FloatLib) (c : BracketProbabilityCalculator)
    (bracket : MarketBracket) (mean std_dev : ℚ) :
    (bracket.bracket_type = .between →
      c.calculate_bracket_probability lib bracket mean std_dev =
        clampSpec
          (normal_cdf lib (bracket.upper_bound + 1/2) mean std_dev -
            normal_cdf lib (bracket.lower_bound - 1/2) mean std_dev)
          c.min_prob c.max_prob)
    ∧ (bracket.bracket_type = .greater_than →
      c.calculate_bracket_probability lib bracket mean std_dev =
        clampSpec (1 - normal_cdf lib (bracket.lower_bound + 1/2) mean std_dev)
          c.min_prob c.max_prob)
    ∧ (bracket.bracket_type = .less_than →
      c.calculate_bracket_probability lib bracket mean std_dev =
        clampSpec (normal_cdf lib (bracket.upper_bound - 1/2) mean std_dev)
          c.min_prob c.max_prob)
    ∧ (BracketProbabilityCalculator.min_prob {} = 1/1000 ∧
       BracketProbabilityCalculator.max_prob {} = 999/1000)
    ∧ (std_dev ≤ 0 → ∀ x, normal_cdf lib x mean std_dev =
        if x ≥ mean then 1 else 0) := by
  refine ⟨fun h => ?_, fun h => ?_, fun h => ?_, ⟨rfl, rfl⟩, fun h x => ?_⟩ <;>
    simp [BracketProbabilityCalculator.calculate_bracket_probability,
      BracketProbabilityCalculator.clamp_probability, clampSpec, normal_cdf, h]

/-- Witness for C1 at a concrete BETWEEN bracket. -/
theorem claim_C1_witness :
    BracketProbabilityCalculator.calculate_bracket_probability {} lib0 bBetween 55 2 =
      clampSpec
        (normal_cdf lib0 (56 + 1/2) 55 2 - normal_cdf lib0 (54 - 1/2) 55 2)
        (1/1000) (999/1000) := by
  have h := (claim_C1_bracket_probability_formula lib0 {} bBetween 55 2).1 rfl
  simpa [bBetween] using h

/-! ## Claim C2 -/

/-- C2: whenever `ObservationAdjuster.adjust` is called with an
observation that has at least one reading, the returned
`AdjustedForecast` satisfies `mean_temp_f ≥ observation.observed_high_f`,
for every combined forecast and every time of day. -/
theorem claim_C2_mean_floor
    (a : ObservationAdjuster) (cf : CombinedForecast)
    (obs : DailyObservation) (t : ℚ) (h : obs.readings ≠ []) :
    obs.observed_high_f ≤ (a.adjust cf (some obs) t).mean_temp_f := by
  have hne : obs.readings.isEmpty = false := by
    simpa [List.isEmpty_iff] using h
  simp only [ObservationAdjuster.adjust, hne, Bool.false_eq_true, if_false]
  exact le_max_right _ _

/-- Witness for C2 at a concrete observation and forecast. -/
theorem claim_C2_witness :
    sampleObs.observed_high_f ≤
      (ObservationAdjuster.adjust {} sampleCombined (some sampleObs) 3).mean_temp_f :=
  claim_C2_mean_floor {} sampleCombined sampleObs 3 (by simp [sampleObs])

/-! ## Claim C8 -/

/-- C8 counterexample: on a bracket whose type is outside the enum, the
default calculator returns `0.001` (the clamp's floor), not `0` as the
claim states. -/
theorem claim_C8_counterexample :
    BracketProbabilityCalculator.calculate_bracket_probability {} lib0 bUnknown 55 2 =
      1/1000 ∧ (1/1000 : ℚ) ≠ 0 := by
  constructor
  · simp [BracketProbabilityCalculator.calculate_bracket_probability,
      BracketProbabilityCalculator.clamp_probability, bUnknown]
  · norm_num

/-- C8 amended: for every bracket whose type is none of the three enum
members, `calculate_bracket_probability` returns the clamp of the
internal default 0, i.e. `max(min_prob, min(max_prob, 0))` — `0.001`
with the default configuration — rather than raising. -/
theorem claim_C8_unknown_type_fallback
    (lib : FloatLib) (c : BracketProbabilityCalculator)
    (bracket : MarketBracket) (mean std_dev : ℚ)
    (h : bracket.bracket_type = .non_member) :
    c.calculate_bracket_probability lib bracket mean std_dev =
      max c.min_prob (min c.max_prob 0) := by
  simp [BracketProbabilityCalculator.calculate_bracket_probability,
    BracketProbabilityCalculator.clamp_probability, h]

/-- Witness for the amended C8 at a concrete bracket. -/
theorem claim_C8_witness :
    BracketProbabilityCalculator.calculate_bracket_probability {} lib0 bUnknown 55 2 =
      max (1/1000) (min (999/1000) 0) := by
  have h := claim_C8_unknown_type_fallback lib0 {} bUnknown 55 2 rfl
  simpa using h

/-! ## Claim C9 -/

/-- C9: `combine_with_custom_weights` leaves the combiner's `weights`
attribute equal to its value before the call (the `finally` block
restores it), so a subsequent `combine` on the same instance uses the
original weights; the override is call-scoped only. -/
theorem claim_C9_custom_weights_call_scoped
    (lib : FloatLib) (c : ForecastCombiner)
    (forecasts : List TemperatureForecast) (custom : List (String × ℚ)) :
    (c.combine_with_custom_weights lib forecasts custom).1 = c ∧
    ∀ later : List TemperatureForecast,
      ((c.combine_with_custom_weights lib forecasts custom).1).combine lib later =
        c.combine lib later := by
  constructor
  · cases c; rfl
  · intro later
    cases c; rfl

/-! ## Claim C5 -/

/-- C5 counterexample: at `hours_since_noon = 8` (> 4) with the default
ceiling 0.95, the observation weight equals the ceiling exactly — it is
not strictly below it, contradicting "never reaching it for any t". -/
theorem claim_C5_counterexample :
    calculate_observation_weight (95/100) 8 = 95/100 ∧
    ¬ calculate_observation_weight (95/100) 8 < 95/100 := by
  have h : calculate_observation_weight (95/100) 8 = 95/100 := by
    norm_num [calculate_observation_weight, EARLY_CUTOFF_HOURS, LATE_CUTOFF_HOURS]
  exact ⟨h, by rw [h]; exact lt_irrefl _⟩

/-- C5 amended: for every `hours_since_noon = t > 4` (and any ceiling
`max_observation_weight > 0.8`), the weight never exceeds the ceiling;
it is strictly below the ceiling while `t < 8`, ramping linearly over
those 4 additional hours, and it equals the ceiling exactly for every
`t ≥ 8`. -/
theorem claim_C5_weight_ramp (M t : ℚ) (hM : 8/10 < M) (ht : 4 < t) :
    calculate_observation_weight M t ≤ M
    ∧ (t < 8 → calculate_observation_weight M t < M)
    ∧ (8 ≤ t → calculate_observation_weight M t = M) := by
  have h0 : ¬ t ≤ 0 := by linarith
  have h2 : ¬ t < (2:ℚ) := by linarith
  have h4 : ¬ t < (4:ℚ) := by linarith
  simp only [calculate_observation_weight, EARLY_CUTOFF_HOURS, LATE_CUTOFF_HOURS,
    h0, h2, h4, if_false]
  refine ⟨min_le_right _ _, fun h8 => ?_, fun h8 => ?_⟩
  · have hp1 : (t - 4) / 4 < 1 := by linarith
    have hp0 : 0 ≤ (t - 4) / 4 := by linarith
    have hmin : min ((t - 4) / 4) 1 = (t - 4) / 4 := min_eq_left (le_of_lt hp1)
    rw [hmin]
    have hw : 8/10 + (M - 8/10) * ((t - 4) / 4) < M := by nlinarith
    calc min (8/10 + (M - 8/10) * ((t - 4) / 4)) M
        ≤ 8/10 + (M - 8/10) * ((t - 4) / 4) := min_le_left _ _
      _ < M := hw
  · have hp : (1 : ℚ) ≤ (t - 4) / 4 := by linarith
    have hmin : min ((t - 4) / 4) 1 = 1 := min_eq_right hp
    rw [hmin]
    simp

/-- Witness for the amended C5 at the default ceiling and `t = 5`. -/
theorem claim_C5_witness :
    calculate_observation_weight (95/100) 5 ≤ 95/100
    ∧ ((5:ℚ) < 8 → calculate_observation_weight (95/100) 5 < 95/100)
    ∧ ((8:ℚ) ≤ 5 → calculate_observation_weight (95/100) 5 = 95/100) :=
  claim_C5_weight_ramp (95/100) 5 (by norm_num) (by norm_num)

/-! ## Claim C3 -/

/-- C3: for fixed model probability and prices, with the entry cost
strictly between 0 and 1, both the YES edge
`model_prob − (yes_ask/100)/(1 − fee_rate)` and the NO edge
`(1 − model_prob) − (1 − yes_bid/100)/(1 − fee_rate)` computed by
`EdgeDetector.analyze` are strictly decreasing in `fee_rate` on
`[0, 1)`; in particular raising `fee_rate` from 0 to 0.5 strictly
reduces both edges. -/
theorem claim_C3_edge_decreasing_in_fee
    (p cost no_cost fee fee' : ℚ)
    (hc0 : 0 < cost) (hc1 : cost < 1)
    (hn0 : 0 < no_cost) (hn1 : no_cost < 1)
    (hf0 : 0 ≤ fee) (hff : fee < fee') (hf1 : fee' < 1) :
    edge_long fee' p cost < edge_long fee p cost
    ∧ edge_short fee' p no_cost < edge_short fee p no_cost
    ∧ edge_long (1/2) p cost < edge_long 0 p cost
    ∧ edge_short (1/2) p no_cost < edge_short 0 p no_cost := by
  have key : ∀ a f f' : ℚ, 0 < a → 0 ≤ f → f < f' → f' < 1 →
      a / (1 - f) < a / (1 - f') := by
    intro a f f' ha h0 hlt h1
    have hdf' : 0 < 1 - f' := by linarith
    have hdf : 0 < 1 - f := by linarith
    rw [div_lt_div_iff hdf hdf']
    nlinarith
  refine ⟨?_, ?_, ?_, ?_⟩ <;> simp only [edge_long, edge_short]
  · have := key cost fee fee' hc0 hf0 hff hf1; linarith
  · have := key no_cost fee fee' hn0 hf0 hff hf1; linarith
  · have := key cost 0 (1/2) hc0 le_rfl (by norm_num) (by norm_num); linarith
  · have := key no_cost 0 (1/2) hn0 le_rfl (by norm_num) (by norm_num); linarith

/-- Witness for C3 at concrete prices and fee rates. -/
theorem claim_C3_witness :
    edge_long (1/10) (1/2) (1/5) < edge_long 0 (1/2) (1/5)
    ∧ edge_short (1/10) (1/2) (9/10) < edge_short 0 (1/2) (9/10)
    ∧ edge_long (1/2) (1/2) (1/5) < edge_long 0 (1/2) (1/5)
    ∧ edge_short (1/2) (1/2) (9/10) < edge_short 0 (1/2) (9/10) :=
  claim_C3_edge_decreasing_in_fee (1/2) (1/5) (9/10) 0 (1/10)
    (by norm_num) (by norm_num) (by norm_num) (by norm_num)
    (by norm_num) (by norm_num) (by norm_num)

/-! ## Claim C4 -/

/-- C4: the code computes `agreement_factor = max(0.8, 1 − temp_diff/20)`,
which is maximal (1, no shrinkage) at perfect agreement and minimal
(0.8, maximal shrinkage) once the observed high is ≥ 4°F away from the
blended mean — the exact opposite of the claim (and of the source's own
comment) that closer agreement allows more shrinkage, i.e. that the
factor is non-decreasing in the distance.  Concretely, in the
forecast-dominant regime (weight 0.3) with forecast std-dev 3: perfect
agreement (mean 54, observed high 54) leaves the std-dev at 3, while a
4°F disagreement (mean 58) shrinks it to 2.4. -/
theorem claim_C4_agreement_factor_inverted :
    agreement_factor 0 = 1 ∧ agreement_factor 4 = 8/10
    ∧ ¬ agreement_factor 0 ≤ agreement_factor 4
    ∧ calculate_adjusted_std_dev (3/2) 3 sampleObs (3/10) 54 = 3
    ∧ calculate_adjusted_std_dev (3/2) 3 sampleObs (3/10) 58 = 12/5
    ∧ ¬ calculate_adjusted_std_dev (3/2) 3 sampleObs (3/10) 54 ≤
        calculate_adjusted_std_dev (3/2) 3 sampleObs (3/10) 58 := by
  refine ⟨?_, ?_, ?_, ?_, ?_, ?_⟩ <;>
    norm_num [agreement_factor, calculate_adjusted_std_dev, sampleObs]

/-! ## Claim C6 -/

/-- Lower bound for the post-4PM branch of the weight curve (helper). -/
theorem late_branch_ge (M t : ℚ) (hM : 8/10 ≤ M) (ht : 4 ≤ t) :
    8/10 ≤ min (8/10 + (M - 8/10) * min ((t - 4) / 4) 1) M := by
  refine le_min ?_ hM
  have hp : 0 ≤ min ((t - 4) / 4) 1 := le_min (by linarith) (by norm_num)
  nlinarith

/-- C6: `_calculate_observation_weight` is monotone non-decreasing in
`hours_since_noon` over its whole domain for any fixed
`max_observation_weight ≥ 0.8`, and returns exactly 0 for every
`hours_since_noon ≤ 0`. -/
theorem claim_C6_weight_monotone (M : ℚ) (hM : 8/10 ≤ M) :
    (∀ t1 t2 : ℚ, t1 ≤ t2 →
      calculate_observation_weight M t1 ≤ calculate_observation_weight M t2)
    ∧ ∀ t : ℚ, t ≤ 0 → calculate_observation_weight M t = 0 := by
  constructor
  · intro t1 t2 h12
    simp only [calculate_observation_weight, EARLY_CUTOFF_HOURS, LATE_CUTOFF_HOURS]
    split_ifs with a1 b1 c1 a2 b2 c2 a2 b2 c2 a2 b2 c2 <;>
      try linarith
    -- t1 before noon, t2 after 4 PM
    · exact le_trans (by linarith) (late_branch_ge M t2 hM (by linarith))
    -- t1 in (0, 2), t2 after 4 PM
    · exact le_trans (by linarith) (late_branch_ge M t2 hM (by linarith))
    -- t1 in [2, 4), t2 after 4 PM
    · exact le_trans (by linarith) (late_branch_ge M t2 hM (by linarith))
    -- both after 4 PM
    · have hmono : min ((t1 - 4) / 4) 1 ≤ min ((t2 - 4) / 4) 1 :=
        min_le_min (by linarith) le_rfl
      have hM' : 0 ≤ M - 8/10 := by linarith
      exact min_le_min (by nlinarith) le_rfl
  · intro t ht
    simp [calculate_observation_weight, ht]

/-- Witness for C6 at the default ceiling and concrete times. -/
theorem claim_C6_witness :
    calculate_observation_weight (95/100) 1 ≤ calculate_observation_weight (95/100) 3
    ∧ calculate_observation_weight (95/100) (-2) = 0 :=
  ⟨(claim_C6_weight_monotone (95/100) (by norm_num)).1 1 3 (by norm_num),
   (claim_C6_weight_monotone (95/100) (by norm_num)).2 (-2) (by norm_num)⟩

/-! ## Claim C7 -/

/-- The forecasts that `combine`'s filter drops: mean missing (`None`)
or NaN. -/
def filteredOut (f : TemperatureForecast) : Prop :=
  f.forecast_temp_f = none ∨ f.forecast_temp_f = some PyFloat.nan

/-- A forecast whose mean is a non-finite float (NaN or ±inf). -/
def nonFiniteTemp (f : TemperatureForecast) : Prop :=
  f.forecast_temp_f = some PyFloat.nan ∨ f.forecast_temp_f = some PyFloat.inf ∨
    f.forecast_temp_f = some PyFloat.ninf

/-- C7 counterexample: a single forecast whose mean is +inf is
non-finite, yet `combine` produces a result for it — `math.isnan(inf)`
is false, so the filter keeps it — contradicting the claim that a list
whose every mean is non-finite yields no result. -/
theorem claim_C7_counterexample :
    (∀ f ∈ [fcInf], nonFiniteTemp f) ∧
      combine_forecasts lib0 [fcInf] ≠ none := by
  constructor
  · intro f hf
    simp only [List.mem_singleton] at hf
    subst hf
    exact Or.inr (Or.inl rfl)
  · decide

/-- C7 amended: `combine` returns `None` — never raising — when the
input list is empty or when every entry's forecast mean is missing or
NaN (such entries are filtered out before combination; non-finite
infinities are *not* filtered); and `EdgeDetector.analyze` returns the
empty list, never raising, when given no forecasts or no brackets. -/
theorem claim_C7_empty_and_invalid_inputs
    (lib : FloatLib) (c : ForecastCombiner)
    (fs fs2 : List TemperatureForecast)
    (observation : Option DailyObservation) (brackets : List MarketBracket)
    (fee min_edge now : ℚ) :
    ((fs = [] ∨ ∀ f ∈ fs, filteredOut f) → c.combine lib fs = none)
    ∧ ((fs2 = [] ∨ brackets = []) →
        analyze lib fee fs2 observation brackets now min_edge = []) := by
  constructor
  · intro h
    rcases h with h | h
    · subst h
      simp [ForecastCombiner.combine]
    · rcases hfs : fs with _ | ⟨f0, rest⟩
      · simp [ForecastCombiner.combine]
      · have hfil : fs.filter validTemp = [] := by
          rw [List.filter_eq_nil]
          intro f hf
          rcases h f hf with h' | h' <;> simp [validTemp, h', PyFloat.isnan]
        rw [← hfs]
        simp only [ForecastCombiner.combine, hfil]
        simp [hfs]
  · intro h
    rcases h with h | h <;> subst h <;> simp [analyze]

/-- Witness for the amended C7 at concrete inputs. -/
theorem claim_C7_witness :
    ForecastCombiner.combine lib0 {} [fcNan] = none
    ∧ analyze lib0 (1/10) [] none [bBetween] 3 (8/100) = [] := by
  have hnan : ∀ f ∈ [fcNan], filteredOut f := by
    intro f hf
    simp only [List.mem_singleton] at hf
    subst hf
    exact Or.inr rfl
  refine ⟨?_, ?_⟩
  · exact (claim_C7_empty_and_invalid_inputs lib0 {} [fcNan] [] none [] (1/10)
      (8/100) 3).1 (Or.inr hnan)
  · exact (claim_C7_empty_and_invalid_inputs lib0 {} [fcNan] [] none [bBetween]
      (1/10) (8/100) 3).2 (Or.inl rfl)

/-! ## Claim C10 -/

/-- Inserting into the edge-sorted list preserves `countP` (helper). -/
theorem countP_insertByEdge (p : TradingSignal → Bool) (s : TradingSignal)
    (l : List TradingSignal) :
    (insertByEdge s l).countP p = l.countP p + (if p s then 1 else 0) := by
  induction l with
  | nil => simp [insertByEdge, List.countP_cons]
  | cons t ts ih =>
    by_cases h : t.edge < s.edge
    · simp only [insertByEdge, if_pos h, List.countP_cons]
    · simp only [insertByEdge, if_neg h, List.countP_cons, ih]
      omega

/-- The edge sort preserves `countP` (helper). -/
theorem countP_sortByEdge (p : TradingSignal → Bool) (l : List TradingSignal) :
    (sortByEdge l).countP p = l.countP p := by
  suffices h : ∀ acc : List TradingSignal,
      (l.foldl (fun acc s => insertByEdge s acc) acc).countP p =
        acc.countP p + l.countP p by
    simpa [sortByEdge] using h []
  induction l with
  | nil => intro acc; simp
  | cons s ts ih =>
    intro acc
    simp only [List.foldl_cons, ih, countP_insertByEdge, List.countP_cons]
    omega

/-- The YES and NO edges of one bracket cannot both clear a
non-negative threshold when the implied YES and NO entry costs sum to
at least 1 (helper). -/
theorem edges_not_both (p A C fee min_edge : ℚ) (hAC : 1 ≤ A + C)
    (hf0 : 0 ≤ fee) (hf1 : fee < 1) (hme : 0 ≤ min_edge) :
    ¬ (min_edge < edge_long fee p A ∧ min_edge < edge_short fee p C) := by
  rintro ⟨h1, h2⟩
  have hd : 0 < 1 - fee := by linarith
  have h3 : 1 ≤ (A + C) / (1 - fee) := by
    rw [le_div_iff hd]
    nlinarith
  have h4 : A / (1 - fee) + C / (1 - fee) = (A + C) / (1 - fee) :=
    div_add_div_same A C (1 - fee)
  simp only [edge_long, edge_short] at h1 h2
  linarith

/-- Every signal emitted for a bracket carries that bracket (helper). -/
theorem mem_signals_for (fee min_edge : ℚ) (adjusted : AdjustedForecast)
    (bp : BracketProbability) (s : TradingSignal)
    (h : s ∈ signals_for fee min_edge adjusted bp) :
    s.bracket = bp.bracket := by
  simp only [signals_for, List.mem_append] at h
  rcases h with h | h <;> split_ifs at h <;> simp_all

/-- A bracket whose ask is at least its bid yields at most one signal
(helper). -/
theorem length_signals_for (fee min_edge : ℚ) (adjusted : AdjustedForecast)
    (bp : BracketProbability)
    (hab : bp.bracket.yes_bid ≤ bp.bracket.yes_ask)
    (hf0 : 0 ≤ fee) (hf1 : fee < 1) (hme : 0 ≤ min_edge) :
    (signals_for fee min_edge adjusted bp).length ≤ 1 := by
  have hcast : (bp.bracket.yes_bid : ℚ) ≤ (bp.bracket.yes_ask : ℚ) := by
    exact_mod_cast hab
  have hAC : 1 ≤ (bp.bracket.yes_ask : ℚ) / 100 +
      (1 - (bp.bracket.yes_bid : ℚ) / 100) := by linarith
  have hnb := edges_not_both bp.model_prob ((bp.bracket.yes_ask : ℚ) / 100)
    (1 - (bp.bracket.yes_bid : ℚ) / 100) fee min_edge hAC hf0 hf1 hme
  simp only [signals_for]
  split_ifs with h1 h2 h3 h4 h3 h4 <;> simp_all

/-- Per-bracket signal count bound over the whole bracket list
(helper). -/
theorem countP_signal_list (fee min_edge : ℚ) (adjusted : AdjustedForecast)
    (F : MarketBracket → BracketProbability) (hF : ∀ x, (F x).bracket = x)
    (b : MarketBracket) (hab : b.yes_bid ≤ b.yes_ask)
    (hf0 : 0 ≤ fee) (hf1 : fee < 1) (hme : 0 ≤ min_edge)
    (brackets : List MarketBracket) :
    (((brackets.map F).map (signals_for fee min_edge adjusted)).flatten).countP
        (fun s => decide (s.bracket = b))
      ≤ brackets.countP (fun x => decide (x = b)) := by
  induction brackets with
  | nil => simp
  | cons x xs ih =>
    simp only [List.map_cons, List.flatten_cons, List.countP_append,
      List.countP_cons]
    have hhead : (signals_for fee min_edge adjusted (F x)).countP
        (fun s => decide (s.bracket = b)) ≤
          (if decide (x = b) = true then 1 else 0) := by
      by_cases hxb : x = b
      · rw [if_pos (by simp [hxb])]
        subst hxb
        have hlen := length_signals_for fee min_edge adjusted (F x)
          (by rw [hF]; exact hab) hf0 hf1 hme
        have hcount := List.countP_le_length
          (p := fun s => decide (s.bracket = x))
          (l := signals_for fee min_edge adjusted (F x))
        omega
      · rw [if_neg (by simp [hxb])]
        have hz : ∀ s ∈ signals_for fee min_edge adjusted (F x),
            ¬ ((fun s => decide (s.bracket = b)) s = true) := by
          intro s hs
          have hsb := mem_signals_for fee min_edge adjusted (F x) s hs
          rw [hF] at hsb
          simp [hsb, hxb]
        rw [List.countP_eq_zero.mpr hz]
    show (signals_for fee min_edge adjusted (F x)).countP
          (fun s => decide (s.bracket = b)) +
        (((xs.map F).map (signals_for fee min_edge adjusted)).flatten).countP
          (fun s => decide (s.bracket = b)) ≤
      xs.countP (fun x => decide (x = b)) + (if decide (x = b) = true then 1 else 0)
    omega

/-- C10 (implicit): for every bracket with `yes_ask ≥ yes_bid`, every
`fee_rate` in `[0, 1)` and every `min_edge ≥ 0`, `EdgeDetector.analyze`
emits at most one signal per occurrence of that bracket — never both a
YES and a NO — because the two edges sum to at most
`−fee_rate/(1 − fee_rate) ≤ 0` and so cannot both exceed a non-negative
threshold. -/
theorem claim_C10_at_most_one_signal
    (lib : FloatLib) (fee min_edge now : ℚ)
    (fs : List TemperatureForecast) (observation : Option DailyObservation)
    (brackets : List MarketBracket) (b : MarketBracket)
    (hab : b.yes_bid ≤ b.yes_ask)
    (hf0 : 0 ≤ fee) (hf1 : fee < 1) (hme : 0 ≤ min_edge) :
    (analyze lib fee fs observation brackets now min_edge).countP
        (fun s => decide (s.bracket = b))
      ≤ brackets.countP (fun x => decide (x = b)) := by
  simp only [analyze]
  split_ifs with h1 h2
  · simp
  · simp
  · cases hcomb : combine_forecasts lib fs with
    | none => simp
    | some combined =>
      simp only [countP_sortByEdge,
        BracketProbabilityCalculator.calculate_from_adjusted_forecast,
        BracketProbabilityCalculator.calculate_all_probabilities]
      exact countP_signal_list fee min_edge _ _ (fun x => rfl) b hab hf0 hf1 hme
        brackets

/-- Witness for C10 at concrete inputs. -/
theorem claim_C10_witness :
    (analyze lib0 (1/10) [sampleFc] (some sampleObs) [bBetween] 3
        (8/100)).countP (fun s => decide (s.bracket = bBetween))
      ≤ [bBetween].countP (fun x => decide (x = bBetween)) :=
  claim_C10_at_most_one_signal lib0 (1/10) (8/100) 3 [sampleFc] (some sampleObs)
    [bBetween] bBetween (by norm_num [bBetween]) (by norm_num) (by norm_num)
    (by norm_num)

end KalshiWeather
